import Mathlib

/-!
Verification of the password-strength meter (`src/app.py`).

The two core functions, `analyze_password` and `generate_strong_password`,
are embedded shallowly.  Strings are Lean `String`s (Python `len` and Lean
`String.length` both count code points); the character-class predicates
model Python's `str.isupper` / `str.islower` / `str.isdigit` /
`c in string.punctuation` on the ASCII fragment, which is the fragment the
blacklist, the generator pools and the specification exercise; weights are
rationals (the UI supplies floats in [0, 5], the spec asks for arbitrary
non-negative reals).  Randomness in the generator is made explicit: the
outcome of each `random.choice` / `random.choices` draw and the
`random.shuffle` permutation are parameters.
-/

namespace PasswordMeter

/-- Python `str.lower` on the ASCII fragment: map each character through
`Char.toLower` (which lowers exactly the ASCII letters A-Z). -/
def pyLower (s : String) : String :=
  String.mk (s.toList.map Char.toLower)

/-- Python `c.isupper()` restricted to ASCII: c is one of A-Z. -/
def pyIsUpper (c : Char) : Bool :=
  'A' ≤ c && c ≤ 'Z'

/-- Python `c.islower()` restricted to ASCII: c is one of a-z. -/
def pyIsLower (c : Char) : Bool :=
  'a' ≤ c && c ≤ 'z'

/-- Python `c.isdigit()` restricted to ASCII: c is one of 0-9. -/
def pyIsDigit (c : Char) : Bool :=
  '0' ≤ c && c ≤ '9'

/-- The Python constant `string.punctuation` (32 ASCII characters). -/
def string_punctuation : List Char :=
  "!\"#$%&'()*+,-./:;<=>?@[\\]^_`\x7b|\x7d~".toList

/-- Python `c in string.punctuation`. -/
def pyIsPunct (c : Char) : Bool :=
  string_punctuation.contains c

/-- The Python constant `string.ascii_uppercase`. -/
def ascii_uppercase : List Char :=
  "ABCDEFGHIJKLMNOPQRSTUVWXYZ".toList

/-- The Python constant `string.ascii_lowercase`. -/
def ascii_lowercase : List Char :=
  "abcdefghijklmnopqrstuvwxyz".toList

/-- The Python constant `string.digits`. -/
def string_digits : List Char :=
  "0123456789".toList

/-- The Python constant `string.ascii_letters` (lowercase then uppercase). -/
def ascii_letters : List Char :=
  ascii_lowercase ++ ascii_uppercase

/-- The module-level `BLACKLIST` set of `app.py` (lines 21-24). -/
def BLACKLIST : List String :=
  ["password", "123456", "123456789", "guest", "admin",
   "qwerty", "letmein", "monkey", "sunshine", "iloveyou"]

/-- The five criterion booleans computed by `analyze_password`
(`criteria` dict, lines 58-64), in Python dict insertion order
length, uppercase, lowercase, digit, special. -/
structure Criteria where
  length : Bool
  uppercase : Bool
  lowercase : Bool
  digit : Bool
  special : Bool
  deriving DecidableEq, Repr

/-- The weight configuration passed to `analyze_password`: one weight per
criterion, keys fixed (spec §3 WeightConfig). -/
structure Weights where
  length : ℚ
  uppercase : ℚ
  lowercase : ℚ
  digit : ℚ
  special : ℚ
  deriving DecidableEq, Repr

/-- Lines 58-64: the `criteria` dict of `analyze_password`. -/
def criteriaOf (password : String) : Criteria where
  length := decide (8 ≤ password.length)
  uppercase := password.toList.any pyIsUpper
  lowercase := password.toList.any pyIsLower
  digit := password.toList.any pyIsDigit
  special := password.toList.any pyIsPunct

/-- Line 67: `total_score = sum(weight for criterion, weight in
weights.items() if criteria[criterion])`. -/
def total_score (c : Criteria) (w : Weights) : ℚ :=
  (if c.length then w.length else 0)
  + (if c.uppercase then w.uppercase else 0)
  + (if c.lowercase then w.lowercase else 0)
  + (if c.digit then w.digit else 0)
  + (if c.special then w.special else 0)

/-- Line 68: `max_score = sum(weights.values())`. -/
def max_score (w : Weights) : ℚ :=
  w.length + w.uppercase + w.lowercase + w.digit + w.special

/-- Lines 70-80: the strength label. -/
def strengthLevel (c : Criteria) (w : Weights) : String :=
  if max_score w = 0 then "Weak"
  else
    let score_percent := total_score c w / max_score w * 100
    if 80 ≤ score_percent then "Strong"
    else if 40 ≤ score_percent then "Moderate"
    else "Weak"

/-- Line 85: `missing = [k for k, v in criteria.items() if not v]`,
in dict insertion order. -/
def Criteria.missing (c : Criteria) : List String :=
  (if c.length then [] else ["length"])
  ++ (if c.uppercase then [] else ["uppercase"])
  ++ (if c.lowercase then [] else ["lowercase"])
  ++ (if c.digit then [] else ["digit"])
  ++ (if c.special then [] else ["special"])

/-- Lines 87-97: the `if/elif` chain of the feedback loop, mapping a
criterion name to the hint line it appends (nothing for unknown names). -/
def hintFor (criterion : String) : List String :=
  if criterion = "length" then ["✅ More characters (minimum 8)"]
  else if criterion = "uppercase" then ["✅ Uppercase letters"]
  else if criterion = "lowercase" then ["✅ Lowercase letters"]
  else if criterion = "digit" then ["✅ Numbers"]
  else if criterion = "special" then ["✅ Special characters"]
  else []

/-- Lines 83-97: the `feedback` list built by `analyze_password`. -/
def feedbackList (c : Criteria) (w : Weights) : List String :=
  if strengthLevel c w ≠ "Strong" then
    "💡 Strengthen your password by adding:" :: c.missing.flatMap hintFor
  else []

/-- Python `sep.join(xs)`. -/
def pyJoin (sep : String) : List String → String
  | [] => ""
  | [x] => x
  | x :: xs => x ++ sep ++ pyJoin sep xs

/-- The value returned by `analyze_password`: either the blacklist
rejection dict (lines 52-55) or the success dict (lines 99-106). -/
inductive Verdict where
  | rejection (message : String)
  | success (criteria : Criteria) (score : ℚ) (maxScore : ℚ)
      (strength : String) (feedback : String)
  deriving DecidableEq, Repr

/-- The `strength` field of a success verdict. -/
def Verdict.getStrength : Verdict → Option String
  | .rejection _ => none
  | .success _ _ _ s _ => some s

/-- The `feedback` field of a success verdict. -/
def Verdict.getFeedback : Verdict → Option String
  | .rejection _ => none
  | .success _ _ _ _ fb => some fb

/-- The `score` field of a success verdict. -/
def Verdict.getScore : Verdict → Option ℚ
  | .rejection _ => none
  | .success _ sc _ _ _ => some sc

/-- Lines 48-106: `analyze_password(password, weights)`. -/
def analyze_password (password : String) (weights : Weights) : Verdict :=
  if pyLower password ∈ BLACKLIST then
    .rejection "❌ Commonly used password detected! Please choose a different one."
  else
    let criteria := criteriaOf password
    let fb := feedbackList criteria weights
    .success criteria (total_score criteria weights) (max_score weights)
      (strengthLevel criteria weights)
      (if fb ≠ [] then pyJoin "\n" fb else "✅ Perfectly secure password!")

/-- Model of a run of the random draws inside `generate_strong_password`:
an index for each of the four `random.choice` calls, an index stream for
`random.choices`, and the permutation performed by `random.shuffle`. -/
structure RandChoices where
  u : Nat
  l : Nat
  d : Nat
  s : Nat
  rest : Nat → Nat
  shuffle : List Char → List Char

/-- Python `random.choice(pool)`: some element of the pool, selected here
by the recorded index reduced modulo the pool size. -/
def listChoice (pool : List Char) (i : Nat) : Char :=
  pool.getD (i % pool.length) 'A'

/-- Lines 27-45: `generate_strong_password(length)`, with the random
draws `r` made explicit. -/
def generate_strong_password (length : Int) (r : RandChoices) : String :=
  let len : Nat := (if length < 8 then (8 : Int) else length).toNat
  let uppercase := listChoice ascii_uppercase r.u
  let lowercase := listChoice ascii_lowercase r.l
  let digit := listChoice string_digits r.d
  let special := listChoice string_punctuation r.s
  let remaining := len - 4
  let all_chars := ascii_letters ++ string_digits ++ string_punctuation
  let password :=
    [uppercase, lowercase, digit, special]
      ++ (List.range remaining).map (fun i => listChoice all_chars (r.rest i))
  String.mk (r.shuffle password)

/-- The all-ones weight configuration used by the spec's examples. -/
def onesW : Weights := ⟨1, 1, 1, 1, 1⟩

/-- The all-zero weight configuration. -/
def zeroW : Weights := ⟨0, 0, 0, 0, 0⟩

/-- Written to the spec's words (§4.1 step 5): one hint per failed
criterion, in the fixed order length, uppercase, lowercase, digit,
special, and no hint for a satisfied criterion. -/
def orderedHints (c : Criteria) : List String :=
  (([(c.length, "✅ More characters (minimum 8)"),
     (c.uppercase, "✅ Uppercase letters"),
     (c.lowercase, "✅ Lowercase letters"),
     (c.digit, "✅ Numbers"),
     (c.special, "✅ Special characters")].filter (fun e => !e.1)).map Prod.snd)

/-- One possible outcome of the random draws: index 0 everywhere and the
identity shuffle. -/
def idRand : RandChoices := ⟨0, 0, 0, 0, fun _ => 0, fun l => l⟩

/-- On a non-blacklisted password, `analyze_password` returns the success
dict built from the helper functions. -/
theorem analyze_not_blacklisted (p : String) (w : Weights)
    (hb : pyLower p ∉ BLACKLIST) :
    analyze_password p w =
      .success (criteriaOf p) (total_score (criteriaOf p) w) (max_score w)
        (strengthLevel (criteriaOf p) w)
        (if feedbackList (criteriaOf p) w ≠ [] then
           pyJoin "\n" (feedbackList (criteriaOf p) w)
         else "✅ Perfectly secure password!") := by
  simp [analyze_password, hb]

/-- The feedback loop of lines 85-97 produces exactly the spec's ordered
hint list. -/
theorem missing_flatMap_eq (c : Criteria) :
    c.missing.flatMap hintFor = orderedHints c := by
  rcases c with ⟨l, u, lo, d, s⟩
  cases l <;> cases u <;> cases lo <;> cases d <;> cases s <;> rfl

/-- Python `sep.join` on a nonempty list starts with the first element,
and the appended tail is empty when the list is a singleton. -/
theorem pyJoin_cons_decomp (sep x : String) (xs : List String) :
    ∃ t : String, pyJoin sep (x :: xs) = x ++ t ∧ (xs = [] → t = "") := by
  cases xs with
  | nil => exact ⟨"", by simp [pyJoin], fun _ => rfl⟩
  | cons y ys =>
    exact ⟨sep ++ pyJoin sep (y :: ys),
      String.append_assoc x sep (pyJoin sep (y :: ys)),
      fun h => absurd h (List.cons_ne_nil y ys)⟩

/-- Any outcome of `random.choice(pool)` is an element of the pool. -/
theorem listChoice_mem (pool : List Char) (i : Nat) (hp : pool ≠ []) :
    listChoice pool i ∈ pool := by
  have hlt : i % pool.length < pool.length :=
    Nat.mod_lt i (List.length_pos.mpr hp)
  rw [listChoice, List.getD_eq_getElem?_getD, List.getElem?_eq_getElem hlt,
    Option.getD_some]
  exact List.getElem_mem hlt

/-- Every character of the uppercase pool is an uppercase letter. -/
theorem upper_pool_spec : ∀ c ∈ ascii_uppercase, pyIsUpper c = true := by decide

/-- Every character of the lowercase pool is a lowercase letter. -/
theorem lower_pool_spec : ∀ c ∈ ascii_lowercase, pyIsLower c = true := by decide

/-- Every character of the digits pool is a digit. -/
theorem digit_pool_spec : ∀ c ∈ string_digits, pyIsDigit c = true := by decide

/-- Every character of the punctuation pool is a punctuation character. -/
theorem punct_pool_spec : ∀ c ∈ string_punctuation, pyIsPunct c = true := by decide

/-- A shuffle that permutes preserves the length of the built string. -/
theorem mk_shuffle_length (r : RandChoices) (xs : List Char)
    (hsh : ∀ l : List Char, (r.shuffle l).Perm l) :
    (String.mk (r.shuffle xs)).length = xs.length := by
  show (r.shuffle xs).length = xs.length
  exact (hsh xs).length_eq

/-- A character class present before a permuting shuffle is present
after it. -/
theorem mk_shuffle_any (r : RandChoices) (xs : List Char)
    (hsh : ∀ l : List Char, (r.shuffle l).Perm l) (P : Char → Bool) (c : Char)
    (hc : c ∈ xs) (hP : P c = true) :
    (String.mk (r.shuffle xs)).toList.any P = true := by
  show (r.shuffle xs).any P = true
  exact List.any_eq_true.mpr ⟨c, (hsh xs).mem_iff.mpr hc, hP⟩

end PasswordMeter

namespace PasswordMeter

/-- C1: a password whose lower-cased form is one of the ten blacklist
entries is rejected by `analyze_password` with the tagged error message,
for every weight configuration; no criteria or scoring fields appear in
the returned verdict. -/
theorem blacklist_rejects (p : String) (w : Weights)
    (hb : pyLower p ∈ BLACKLIST) :
    analyze_password p w =
      .rejection "❌ Commonly used password detected! Please choose a different one." := by
  simp [analyze_password, hb]

/-- C1 witness: the blacklisted password PASSWORD is rejected even under
weights (length 1, uppercase 1, rest 0) that would otherwise classify it
as Strong. -/
theorem blacklist_rejects_witness :
    pyLower "PASSWORD" ∈ BLACKLIST ∧
      analyze_password "PASSWORD" ⟨1, 1, 0, 0, 0⟩ =
        .rejection "❌ Commonly used password detected! Please choose a different one." :=
  ⟨by decide, blacklist_rejects "PASSWORD" ⟨1, 1, 0, 0, 0⟩ (by decide)⟩

/-- C2: for every integer n (including n less than 8) and every outcome
of the random draws (any choice indices and any permuting shuffle),
`generate_strong_password` returns a string of length exactly max n 8
containing at least one ASCII uppercase letter, one lowercase letter,
one digit and one punctuation character. -/
theorem generate_length_and_classes (n : Int) (r : RandChoices)
    (hsh : ∀ l : List Char, (r.shuffle l).Perm l) :
    ((generate_strong_password n r).length : Int) = max n 8
    ∧ (generate_strong_password n r).toList.any pyIsUpper = true
    ∧ (generate_strong_password n r).toList.any pyIsLower = true
    ∧ (generate_strong_password n r).toList.any pyIsDigit = true
    ∧ (generate_strong_password n r).toList.any pyIsPunct = true := by
  simp only [generate_strong_password]
  refine ⟨?_, ?_, ?_, ?_, ?_⟩
  · rw [mk_shuffle_length r _ hsh]
    simp only [List.length_append, List.length_cons, List.length_nil,
      List.length_map, List.length_range]
    rcases lt_or_le n 8 with h | h
    · rw [if_pos h, max_eq_right h.le]
      decide
    · rw [if_neg (not_lt.mpr h), max_eq_left h]
      omega
  · exact mk_shuffle_any r _ hsh pyIsUpper (listChoice ascii_uppercase r.u)
      (by simp) (upper_pool_spec _ (listChoice_mem _ _ (by decide)))
  · exact mk_shuffle_any r _ hsh pyIsLower (listChoice ascii_lowercase r.l)
      (by simp) (lower_pool_spec _ (listChoice_mem _ _ (by decide)))
  · exact mk_shuffle_any r _ hsh pyIsDigit (listChoice string_digits r.d)
      (by simp) (digit_pool_spec _ (listChoice_mem _ _ (by decide)))
  · exact mk_shuffle_any r _ hsh pyIsPunct (listChoice string_punctuation r.s)
      (by simp) (punct_pool_spec _ (listChoice_mem _ _ (by decide)))

/-- C2 witness: the identity-randomness outcome at requested length 12. -/
theorem generate_length_and_classes_witness :
    ((generate_strong_password 12 idRand).length : Int) = max 12 8
    ∧ (generate_strong_password 12 idRand).toList.any pyIsUpper = true
    ∧ (generate_strong_password 12 idRand).toList.any pyIsLower = true
    ∧ (generate_strong_password 12 idRand).toList.any pyIsDigit = true
    ∧ (generate_strong_password 12 idRand).toList.any pyIsPunct = true :=
  generate_length_and_classes 12 idRand (fun l => List.Perm.refl l)

/-- C3: for a non-blacklisted password and positive maxScore, the label
is Strong exactly when the percentage score/maxScore*100 is at least 80,
Moderate exactly when it is in [40, 80), and Weak exactly when it is
below 40 (lower edges inclusive). -/
theorem strength_bands (p : String) (w : Weights)
    (hb : pyLower p ∉ BLACKLIST) (hm : 0 < max_score w) :
    ((analyze_password p w).getStrength = some "Strong" ↔
        80 ≤ total_score (criteriaOf p) w / max_score w * 100)
    ∧ ((analyze_password p w).getStrength = some "Moderate" ↔
        (40 ≤ total_score (criteriaOf p) w / max_score w * 100 ∧
          total_score (criteriaOf p) w / max_score w * 100 < 80))
    ∧ ((analyze_password p w).getStrength = some "Weak" ↔
        total_score (criteriaOf p) w / max_score w * 100 < 40) := by
  rw [analyze_not_blacklisted p w hb]
  simp only [Verdict.getStrength, Option.some.injEq]
  rw [strengthLevel, if_neg hm.ne']
  dsimp only
  split_ifs with h1 h2
  · refine ⟨by simp [h1], ?_, ?_⟩
    · constructor
      · intro h; exact absurd h (by decide)
      · rintro ⟨-, h⟩; linarith
    · constructor
      · intro h; exact absurd h (by decide)
      · intro h; linarith
  · refine ⟨?_, ?_, ?_⟩
    · constructor
      · intro h; exact absurd h (by decide)
      · intro h; exact absurd h h1
    · simp only [true_iff]
      exact ⟨h2, lt_of_not_le h1⟩
    · constructor
      · intro h; exact absurd h (by decide)
      · intro h; linarith
  · refine ⟨?_, ?_, ?_⟩
    · constructor
      · intro h; exact absurd h (by decide)
      · intro h; linarith
    · constructor
      · intro h; exact absurd h (by decide)
      · rintro ⟨h, -⟩; exact absurd h h2
    · simp only [true_iff]
      exact lt_of_not_le h2

/-- C3 witness: the Strong band at a concrete input with all weights 1. -/
theorem strength_bands_witness :
    (pyLower "Abcdefg1!" ∉ BLACKLIST ∧ (0 : ℚ) < max_score onesW) ∧
      ((analyze_password "Abcdefg1!" onesW).getStrength = some "Strong" ↔
        80 ≤ total_score (criteriaOf "Abcdefg1!") onesW / max_score onesW * 100) := by
  have hb : pyLower "Abcdefg1!" ∉ BLACKLIST := by decide
  have hm : (0 : ℚ) < max_score onesW := by norm_num [max_score, onesW]
  exact ⟨⟨hb, hm⟩, (strength_bands "Abcdefg1!" onesW hb hm).1⟩

/-- C4: when the computed strength is Strong, the feedback of the
returned success verdict is the single affirmative message and contains
no improvement hints. -/
theorem strong_feedback_affirmative (p : String) (w : Weights)
    (hb : pyLower p ∉ BLACKLIST)
    (hs : (analyze_password p w).getStrength = some "Strong") :
    (analyze_password p w).getFeedback = some "✅ Perfectly secure password!" := by
  rw [analyze_not_blacklisted p w hb] at hs ⊢
  simp only [Verdict.getStrength, Option.some.injEq] at hs
  simp only [Verdict.getFeedback]
  rw [feedbackList, if_neg (by simp [hs])]

/-- C4 witness: Abcdefg1 with the special criterion unmet but weighted
zero still classifies Strong and gets the affirmative message with no
hints. -/
theorem strong_feedback_affirmative_witness :
    pyLower "Abcdefg1" ∉ BLACKLIST ∧
      (analyze_password "Abcdefg1" ⟨1, 1, 1, 1, 0⟩).getStrength = some "Strong" ∧
      ¬ (criteriaOf "Abcdefg1").special ∧
      (analyze_password "Abcdefg1" ⟨1, 1, 1, 1, 0⟩).getFeedback =
        some "✅ Perfectly secure password!" := by
  have hb : pyLower "Abcdefg1" ∉ BLACKLIST := by decide
  have hc : criteriaOf "Abcdefg1" = ⟨true, true, true, true, false⟩ := by decide
  have hs : (analyze_password "Abcdefg1" ⟨1, 1, 1, 1, 0⟩).getStrength = some "Strong" := by
    rw [analyze_not_blacklisted _ _ hb, hc]
    simp only [Verdict.getStrength, Option.some.injEq]
    rw [strengthLevel, if_neg (by norm_num [max_score])]
    norm_num [total_score, max_score]
  exact ⟨hb, hs, by rw [hc]; decide,
    strong_feedback_affirmative "Abcdefg1" ⟨1, 1, 1, 1, 0⟩ hb hs⟩

/-- C5 counterexample: with all weights 1, analyze of PASSWORD does not
return a success verdict with strength Moderate, because PASSWORD
lower-cases to the blacklisted entry password; it is rejected. -/
theorem password_upper_rejected :
    analyze_password "PASSWORD" onesW =
      .rejection "❌ Commonly used password detected! Please choose a different one."
    ∧ (analyze_password "PASSWORD" onesW).getStrength ≠ some "Moderate" := by
  constructor <;> decide

/-- C5 amended: for a non-blacklisted all-uppercase input of length at
least 8 (UPPERCASE), with all weights 1, analyze returns a success
verdict with lowercase, digit and special false, length and uppercase
true, score 2 of maxScore 5 (40 percent) and strength Moderate. -/
theorem uppercase_moderate_example :
    analyze_password "UPPERCASE" onesW =
      .success ⟨true, true, false, false, false⟩ 2 5 "Moderate"
        "💡 Strengthen your password by adding:\n✅ Lowercase letters\n✅ Numbers\n✅ Special characters" := by
  have hb : pyLower "UPPERCASE" ∉ BLACKLIST := by decide
  have hc : criteriaOf "UPPERCASE" = ⟨true, true, false, false, false⟩ := by decide
  rw [analyze_not_blacklisted _ _ hb, hc]
  have hts : total_score ⟨true, true, false, false, false⟩ onesW = 2 := by
    norm_num [total_score, onesW]
  have hms : max_score onesW = 5 := by norm_num [max_score, onesW]
  have hsl : strengthLevel ⟨true, true, false, false, false⟩ onesW = "Moderate" := by
    rw [strengthLevel, if_neg (by rw [hms]; norm_num)]
    rw [hts, hms]
    norm_num
  rw [hts, hms, hsl]
  rw [feedbackList, if_pos (by rw [hsl]; decide)]
  rw [hsl]
  rfl

/-- C6: for a non-blacklisted password, when maxScore is 0 the strength
label is Weak regardless of which criteria are satisfied. -/
theorem zero_max_score_weak (p : String) (w : Weights)
    (hb : pyLower p ∉ BLACKLIST) (hm : max_score w = 0) :
    (analyze_password p w).getStrength = some "Weak" := by
  rw [analyze_not_blacklisted p w hb]
  simp [Verdict.getStrength, strengthLevel, hm]

/-- C6 witness: a password satisfying all five criteria is still Weak
under the all-zero weight configuration. -/
theorem zero_max_score_weak_witness :
    pyLower "Abcdefg1!" ∉ BLACKLIST ∧ max_score zeroW = 0 ∧
      (analyze_password "Abcdefg1!" zeroW).getStrength = some "Weak" :=
  ⟨by decide, by norm_num [max_score, zeroW],
    zero_max_score_weak "Abcdefg1!" zeroW (by decide) (by norm_num [max_score, zeroW])⟩

/-- C7: when the computed strength is not Strong, the feedback is the
newline-join of the fixed header followed by exactly one hint per failed
criterion, in the fixed order length, uppercase, lowercase, digit,
special, with no hint for a satisfied criterion. -/
theorem not_strong_hints (p : String) (w : Weights)
    (hb : pyLower p ∉ BLACKLIST)
    (hs : (analyze_password p w).getStrength ≠ some "Strong") :
    (analyze_password p w).getFeedback =
      some (pyJoin "\n"
        ("💡 Strengthen your password by adding:" :: orderedHints (criteriaOf p))) := by
  rw [analyze_not_blacklisted p w hb] at hs ⊢
  simp only [Verdict.getStrength, ne_eq, Option.some.injEq] at hs
  simp only [Verdict.getFeedback]
  rw [feedbackList, if_pos hs, missing_flatMap_eq]
  simp

/-- C7 witness: abc with all weights 1 is Weak, and its feedback lists
hints for the four failed criteria (length, uppercase, digit, special)
in that order, with no hint for the satisfied lowercase criterion. -/
theorem not_strong_hints_witness :
    pyLower "abc" ∉ BLACKLIST ∧
      (analyze_password "abc" onesW).getStrength ≠ some "Strong" ∧
      (analyze_password "abc" onesW).getFeedback =
        some "💡 Strengthen your password by adding:\n✅ More characters (minimum 8)\n✅ Uppercase letters\n✅ Numbers\n✅ Special characters" := by
  have hb : pyLower "abc" ∉ BLACKLIST := by decide
  have hc : criteriaOf "abc" = ⟨false, false, true, false, false⟩ := by decide
  have hs : (analyze_password "abc" onesW).getStrength ≠ some "Strong" := by
    rw [analyze_not_blacklisted _ _ hb, hc]
    simp only [Verdict.getStrength, Option.some.injEq]
    rw [strengthLevel, if_neg (by norm_num [max_score, onesW])]
    norm_num [total_score, max_score, onesW]
    decide
  refine ⟨hb, hs, ?_⟩
  rw [not_strong_hints "abc" onesW hb hs, hc]
  rfl

/-- C8: the empty string is a valid, non-blacklisted input on which
`analyze_password` returns (for every weight configuration) a success
verdict with all five criteria false, score 0 and strength Weak. -/
theorem analyze_empty_string (w : Weights) :
    analyze_password "" w =
      .success ⟨false, false, false, false, false⟩ 0 (max_score w) "Weak"
        "💡 Strengthen your password by adding:\n✅ More characters (minimum 8)\n✅ Uppercase letters\n✅ Lowercase letters\n✅ Numbers\n✅ Special characters" := by
  have hb : pyLower "" ∉ BLACKLIST := by decide
  have hc : criteriaOf "" = ⟨false, false, false, false, false⟩ := by decide
  rw [analyze_not_blacklisted _ _ hb, hc]
  have hts : total_score ⟨false, false, false, false, false⟩ w = 0 := by
    simp [total_score]
  have hsl : strengthLevel ⟨false, false, false, false, false⟩ w = "Weak" := by
    rw [strengthLevel]
    rcases eq_or_ne (max_score w) 0 with hm | hm
    · rw [if_pos hm]
    · rw [if_neg hm, hts]
      norm_num
  rw [hts, hsl]
  rw [feedbackList, if_pos (by rw [hsl]; decide), hsl]
  rfl

/-- C9: `analyze_password` is a pure deterministic function: equal
password strings and equal weight configurations yield equal verdicts. -/
theorem analyze_deterministic (p q : String) (v w : Weights)
    (hp : p = q) (hw : v = w) :
    analyze_password p v = analyze_password q w := by
  rw [hp, hw]

/-- C9 witness: two calls at identical concrete inputs coincide. -/
theorem analyze_deterministic_witness :
    "abc123" = "abc123" ∧ onesW = onesW ∧
      analyze_password "abc123" onesW = analyze_password "abc123" onesW :=
  ⟨rfl, rfl, analyze_deterministic "abc123" "abc123" onesW onesW rfl rfl⟩

/-- C10: when the computed strength is not Strong, the feedback is
non-empty and begins with the fixed header line; and when every
criterion is satisfied (as happens with maxScore 0 only in the Weak
branch) the feedback is exactly the header with zero hints. -/
theorem feedback_header (p : String) (w : Weights)
    (hb : pyLower p ∉ BLACKLIST)
    (hs : (analyze_password p w).getStrength ≠ some "Strong") :
    ∃ t : String,
      (analyze_password p w).getFeedback =
        some ("💡 Strengthen your password by adding:" ++ t)
      ∧ "💡 Strengthen your password by adding:" ++ t ≠ ""
      ∧ (criteriaOf p = ⟨true, true, true, true, true⟩ →
          "💡 Strengthen your password by adding:" ++ t =
            "💡 Strengthen your password by adding:") := by
  rw [analyze_not_blacklisted p w hb] at hs ⊢
  simp only [Verdict.getStrength, ne_eq, Option.some.injEq] at hs
  simp only [Verdict.getFeedback]
  rw [feedbackList, if_pos hs]
  obtain ⟨t, ht, hte⟩ := pyJoin_cons_decomp "\n"
    "💡 Strengthen your password by adding:" ((criteriaOf p).missing.flatMap hintFor)
  refine ⟨t, ?_, ?_, ?_⟩
  · rw [if_pos (by simp), ht]
  · intro hcontra
    have hlen := congrArg String.length hcontra
    rw [String.length_append, String.length_empty] at hlen
    have hpos : 0 < ("💡 Strengthen your password by adding:" : String).length := by
      decide
    omega
  · intro hc
    have hmiss : (criteriaOf p).missing.flatMap hintFor = [] := by rw [hc]; rfl
    rw [hte hmiss, String.append_empty]

/-- C10 witness: under the all-zero weight configuration a password
meeting all five criteria is Weak and its feedback is exactly the header
line alone. -/
theorem feedback_header_witness :
    (pyLower "Abcdefg1!" ∉ BLACKLIST
      ∧ (analyze_password "Abcdefg1!" zeroW).getStrength ≠ some "Strong"
      ∧ max_score zeroW = 0
      ∧ criteriaOf "Abcdefg1!" = ⟨true, true, true, true, true⟩)
    ∧ (analyze_password "Abcdefg1!" zeroW).getFeedback =
        some "💡 Strengthen your password by adding:" := by
  have hb : pyLower "Abcdefg1!" ∉ BLACKLIST := by decide
  have hm : max_score zeroW = 0 := by norm_num [max_score, zeroW]
  have hc : criteriaOf "Abcdefg1!" = ⟨true, true, true, true, true⟩ := by decide
  have hs : (analyze_password "Abcdefg1!" zeroW).getStrength ≠ some "Strong" := by
    rw [analyze_not_blacklisted _ _ hb]
    simp only [Verdict.getStrength, ne_eq, Option.some.injEq]
    rw [strengthLevel, if_pos hm]
    decide
  refine ⟨⟨hb, hs, hm, hc⟩, ?_⟩
  obtain ⟨t, h1, h2, h3⟩ := feedback_header "Abcdefg1!" zeroW hb hs
  rw [h1, h3 hc]

end PasswordMeter
